import Mathlib

/-!
Verification of the Question Type Registry & Evaluation Engine of ff-lms.

The engine's scoring, formatting and legacy-migration functions are embedded
shallowly:

* JavaScript runtime values that the code inspects dynamically (the response
  objects handed to `calculateCompletionScore`, the untyped questions and
  responses handed to the migration layer) are modelled by the inductive
  `JVal`, with explicit truthiness and property access mirroring ECMAScript
  semantics on the shapes the code touches.
* Pure functions become Lean functions.  `JSON.parse` (a platform builtin)
  is passed in as an explicit `parse : String → Option JVal` argument, `none`
  standing for a parse error (a thrown exception that the source catches).
* Code paths that raise an uncaught runtime `TypeError` are modelled with
  `Except String`, the `.error` case carrying the message of the exception.
* JavaScript numbers are modelled by `Int` (indices, positions) and by `ℚ`
  (scores); the score arithmetic performed by the code (`c / n` with
  `0 ≤ c ≤ n`, `n` a small blank count, compared against the literals `0.7`
  and `0.4`) is exact in IEEE doubles for all feasible blank counts, so the
  rational model agrees with the runtime on the claims proved here.
* `Array.prototype.sort` sorts in place; the result formatters, which call it
  on `question.content.blanks`, are therefore modelled as returning the
  question as it is left after the call alongside their display string.

Answer-array elements are modelled as records of the two fields the code
reads (`blankId`, `value`), a non-string field standing as `none`; responses
whose answer arrays contain `null` elements or non-string `value` fields are
outside every claim considered here.
-/

namespace FFLMS

/-- A dynamic JavaScript value, as inspected by the engine's untyped code
paths: `undefined` is `undefined`, `obj` keeps the own enumerable fields in
insertion order (the order `Object.entries` yields). -/
inductive JVal where
  | undefined : JVal
  | null : JVal
  | bool : Bool → JVal
  | num : Int → JVal
  | str : String → JVal
  | arr : List JVal → JVal
  | obj : List (String × JVal) → JVal

/-- ECMAScript truthiness of a value (`NaN` does not arise in this model). -/
def JVal.truthy : JVal → Bool
  | .undefined => false
  | .null => false
  | .bool b => b
  | .num n => n != 0
  | .str s => s != ""
  | .arr _ => true
  | .obj _ => true

/-- `Array.isArray`. -/
def JVal.isArr : JVal → Bool
  | .arr _ => true
  | _ => false

/-- `typeof v === 'string'`. -/
def JVal.isStr : JVal → Bool
  | .str _ => true
  | _ => false

/-- `typeof v === 'number'`. -/
def JVal.isNum : JVal → Bool
  | .num _ => true
  | _ => false

/-- `typeof v === 'object'` (true for objects, arrays and `null`). -/
def JVal.isObjTypeof : JVal → Bool
  | .obj _ => true
  | .arr _ => true
  | .null => true
  | _ => false

/-- Property read `v.k` on a value that is not `null`/`undefined` (every use
below is guarded by a truthiness check, as in the source): objects yield the
field, any other value yields `undefined`. -/
def JVal.get : JVal → String → JVal
  | .obj fs, k =>
    match fs.find? (fun p => p.1 == k) with
    | some p => p.2
    | none => .undefined
  | _, _ => .undefined

/-- The `in` operator: `k in v`. -/
def JVal.hasKey : JVal → String → Bool
  | .obj fs, k => fs.any (fun p => p.1 == k)
  | _, _ => false

/-- Elements of an array value. -/
def JVal.elems : JVal → List JVal
  | .arr l => l
  | _ => []

/-- A response object: the own fields of the value handed to the scorer, in
insertion order. -/
def RespObj : Type := List (String × JVal)

/-- Field read on the response object itself. -/
def getField (resp : RespObj) (k : String) : JVal :=
  match List.find? (fun p => p.1 == k) resp with
  | some p => p.2
  | none => .undefined

/-! ## Completion data model (`src/lib/types/question-types`) -/

/-- One blank of a completion question.  `id`, `acceptedAnswers`, `answer`
and `alternatives` are optional because the scorer probes for their presence
dynamically (AI-generated questions use `answer`/`alternatives` instead of
`acceptedAnswers`).  Presentation-only fields (`hint`) are omitted. -/
structure BlankSpec where
  id : Option String
  position : Int
  acceptedAnswers : Option (List String)
  answer : Option String
  alternatives : Option (List String)
  caseSensitive : Bool
deriving DecidableEq

/-- Content payload of a completion question. -/
structure CompletionContent where
  template : String
  blanks : List BlankSpec
deriving DecidableEq

/-- A completion question (fields the scorer and formatter read). -/
structure CompletionQuestion where
  id : String
  explanation : Option String
  content : CompletionContent
deriving DecidableEq

/-- One element of a submitted answers array: the two fields the code reads.
A missing or non-string field is `none`. -/
structure BlankAnswer where
  blankId : Option String
  value : Option String
deriving DecidableEq

/-- Partial-credit detail of an evaluation. -/
structure PartialCredit where
  earned : Nat
  possible : Nat
  details : List String
deriving DecidableEq

/-- `QuestionEvaluationResult`: `questionIndex` is echoed from the response
(it may be `undefined` on malformed input, hence `JVal`); `correctAnswer`
and `partialCredit` are present only for some question types. -/
structure EvalResult where
  questionIndex : JVal
  questionType : String
  isCorrect : Bool
  score : ℚ
  maxScore : ℚ
  feedback : String
  correctAnswer : Option String
  partialCredit : Option PartialCredit

/-! ## Completion scorer (`src/lib/registry/question-types/completion.ts`) -/

/-- Whitespace trimmed by `String.prototype.trim` (the ASCII part, which is
all the engine's data contains). -/
def jsWhitespace (c : Char) : Bool :=
  c == ' ' || c == '\t' || c == '\n' || c == '\r'

/-- `String.prototype.trim`: strip leading and trailing whitespace. -/
def jsTrim (s : String) : String :=
  String.mk (((s.data.dropWhile jsWhitespace).reverse.dropWhile jsWhitespace).reverse)

/-- `String.prototype.toLowerCase` (ASCII case folding, which is all the
engine's comparisons exercise). -/
def jsToLower (s : String) : String :=
  String.mk (s.data.map Char.toLower)

/-- `blank.id || `blank-${index}``: the identifier the scorer uses for a
blank (an absent or empty `id` is falsy and replaced by the positional
identifier). -/
def effectiveId (b : BlankSpec) (index : Nat) : String :=
  match b.id with
  | some s => if s == "" then "blank-" ++ toString index else s
  | none => "blank-" ++ toString index

/-- Predicate of the `userAnswers.find` call: the submitted `blankId` equals
`blank.id || `blank-${index}``, or `blank.id`, or ``blank-${index}``. -/
def answerMatchesBlank (a : BlankAnswer) (b : BlankSpec) (index : Nat) : Bool :=
  a.blankId == some (effectiveId b index) ||
  (match b.id with
   | some s => a.blankId == some s
   | none => false) ||
  a.blankId == some ("blank-" ++ toString index)

/-- Locate the submitted answer for a blank: `find` by identifier, then the
positional fallback `userAnswers[index]`. -/
def findAnswerFor (userAnswers : List BlankAnswer) (b : BlankSpec) (index : Nat) :
    Option BlankAnswer :=
  match userAnswers.find? (fun a => answerMatchesBlank a b index) with
  | some a => some a
  | none => userAnswers[index]?

/-- `userAnswer?.value?.trim() || ''`. -/
def locateUserValue (userAnswers : List BlankAnswer) (b : BlankSpec) (index : Nat) :
    String :=
  match findAnswerFor userAnswers b index with
  | some a =>
    match a.value with
    | some v => jsTrim v
    | none => ""
  | none => ""

/-- The acceptance set the scorer checks against: `acceptedAnswers` when it
is an array, otherwise the truthy `answer` field followed by the
`alternatives` array when present. -/
def acceptanceSet (b : BlankSpec) : List String :=
  match b.acceptedAnswers with
  | some l => l
  | none =>
    match b.answer with
    | some a =>
      if a == "" then []
      else a :: (b.alternatives.getD [])
    | none => []

/-- Whether one blank grades correct: some accepted answer, trimmed and
lower-cased unless `caseSensitive`, equals the located user value treated
the same way (the user value is already trimmed by `locateUserValue`). -/
def blankCorrect (userAnswers : List BlankAnswer) (b : BlankSpec) (index : Nat) :
    Bool :=
  (acceptanceSet b).any fun a =>
    let normalizedAccepted := if b.caseSensitive then jsTrim a else jsToLower (jsTrim a)
    let normalizedUser :=
      if b.caseSensitive then locateUserValue userAnswers b index
      else jsToLower (locateUserValue userAnswers b index)
    normalizedAccepted == normalizedUser

/-- The detail tag pushed for one blank. -/
def blankDetail (userAnswers : List BlankAnswer) (b : BlankSpec) (index : Nat) :
    String :=
  if blankCorrect userAnswers b index then
    "blank-" ++ effectiveId b index ++ "-correct"
  else
    "blank-" ++ effectiveId b index ++ "-incorrect"

/-- The `correctBlanks` counter accumulated by the `blanks.forEach` loop,
starting at index `i`. -/
def countCorrect (userAnswers : List BlankAnswer) : List BlankSpec → Nat → Nat
  | [], _ => 0
  | b :: bs, i =>
    (if blankCorrect userAnswers b i then 1 else 0) + countCorrect userAnswers bs (i + 1)

/-- The `details` list accumulated by the `blanks.forEach` loop, starting at
index `i`. -/
def gradeDetails (userAnswers : List BlankAnswer) : List BlankSpec → Nat → List String
  | [], _ => []
  | b :: bs, i => blankDetail userAnswers b i :: gradeDetails userAnswers bs (i + 1)

/-- The evaluation built after a user-answers list has been extracted: score,
full-correctness flag, banded feedback and partial credit, exactly as the
tail of `calculateCompletionScore`. -/
def gradeCompletion (blanks : List BlankSpec) (userAnswers : List BlankAnswer)
    (qIndex : JVal) : EvalResult :=
  let totalBlanks := blanks.length
  let correctBlanks := countCorrect userAnswers blanks 0
  let score : ℚ := if 0 < totalBlanks then (correctBlanks : ℚ) / (totalBlanks : ℚ) else 0
  let isFullyCorrect := correctBlanks == totalBlanks
  { questionIndex := qIndex
    questionType := "completion"
    isCorrect := isFullyCorrect
    score := score
    maxScore := 1
    feedback :=
      if isFullyCorrect then "Excellent! All blanks filled correctly."
      else if (7 : ℚ) / 10 ≤ score then
        "Good work! " ++ toString correctBlanks ++ " out of " ++ toString totalBlanks ++
          " blanks correct."
      else if (2 : ℚ) / 5 ≤ score then
        "Partial credit. " ++ toString correctBlanks ++ " out of " ++ toString totalBlanks ++
          " blanks correct. Review the incorrect answers."
      else
        "More practice needed. Only " ++ toString correctBlanks ++ " out of " ++
          toString totalBlanks ++ " blanks correct."
    correctAnswer := none
    partialCredit := some ⟨correctBlanks, totalBlanks, gradeDetails userAnswers blanks 0⟩ }

/-- Detail tags of the zero-score fallback:
``blank-${blank.id || `blank-${index}`}-incorrect``. -/
def fallbackDetails : List BlankSpec → Nat → List String
  | [], _ => []
  | b :: bs, i => ("blank-" ++ effectiveId b i ++ "-incorrect") :: fallbackDetails bs (i + 1)

/-- The evaluation returned when no answers could be extracted from the
response. -/
def noAnswersResult (blanks : List BlankSpec) (qIndex : JVal) : EvalResult :=
  { questionIndex := qIndex
    questionType := "completion"
    isCorrect := false
    score := 0
    maxScore := 1
    feedback := "No answers provided - unable to evaluate response."
    correctAnswer := none
    partialCredit := some ⟨0, blanks.length, fallbackDetails blanks 0⟩ }

/-- Outcome of the response-normalization chain at the head of
`calculateCompletionScore`: a list of answers was assigned, or `userAnswers`
was assigned a non-array value (the legacy JSON fallback), or no branch
assigned anything. -/
inductive ExtractOutcome where
  | found : List BlankAnswer → ExtractOutcome
  | nonArray : JVal → ExtractOutcome
  | notFound : ExtractOutcome

/-- Cast one element of an extracted answers array to the two fields read by
the grading loop. -/
def toBlankAnswer (v : JVal) : BlankAnswer :=
  { blankId :=
      match v.get "blankId" with
      | .str s => some s
      | _ => none
    value :=
      match v.get "value" with
      | .str s => some s
      | _ => none }

/-- First heuristic test of the field scan: a non-empty array whose first
element is a truthy `object` with a `blankId` or `value` key. -/
def answersShapedArr (v : JVal) : Bool :=
  match v with
  | .arr (h :: _) => h.truthy && h.isObjTypeof && (h.hasKey "blankId" || h.hasKey "value")
  | _ => false

/-- The `for (const [key, value] of Object.entries(response))` scan: skip the
`questionIndex`/`questionType`/`timestamp` keys and take the first field that
is an answer-shaped array or an object with an `answers` array. -/
def scanFields : List (String × JVal) → ExtractOutcome
  | [] => .notFound
  | (k, v) :: rest =>
    if k == "questionIndex" || k == "questionType" || k == "timestamp" then
      scanFields rest
    else if answersShapedArr v then
      .found (v.elems.map toBlankAnswer)
    else if v.truthy && v.isObjTypeof && v.hasKey "answers" && (v.get "answers").isArr then
      .found ((v.get "answers").elems.map toBlankAnswer)
    else
      scanFields rest

/-- The normalization chain: `response.response.answers`, then
`response.answers`, then the JSON-encoded `response.answer` string (with its
legacy non-array fallback), then an array-valued `response.response`, then
the heuristic field scan.  A failed `JSON.parse`, or a parsed `null` (whose
`.answers` access throws inside the `try`), leaves `userAnswers` as the empty
list of the surrounding declaration. -/
def extractUserAnswers (resp : RespObj) (parse : String → Option JVal) :
    ExtractOutcome :=
  let r := getField resp "response"
  if r.truthy && (r.get "answers").truthy && (r.get "answers").isArr then
    .found ((r.get "answers").elems.map toBlankAnswer)
  else if (getField resp "answers").truthy && (getField resp "answers").isArr then
    .found ((getField resp "answers").elems.map toBlankAnswer)
  else if (getField resp "answer").truthy && (getField resp "answer").isStr then
    match getField resp "answer" with
    | .str s =>
      match parse s with
      | none => .found []
      | some .null => .found []
      | some v =>
        if (v.get "answers").truthy && (v.get "answers").isArr then
          .found ((v.get "answers").elems.map toBlankAnswer)
        else
          match v with
          | .arr l => .found (l.map toBlankAnswer)
          | w => .nonArray w
    | _ => .notFound
  else if r.truthy && r.isArr then
    .found (r.elems.map toBlankAnswer)
  else
    scanFields resp

/-- `calculateCompletionScore`.  When the legacy JSON fallback has assigned a
non-array to `userAnswers` and the question has at least one blank, the
grading loop's `userAnswers.find` call raises an uncaught `TypeError`,
modelled as `.error`; with no blanks the loop body never runs and the
zero-blank evaluation is returned. -/
def calculateCompletionScore (q : CompletionQuestion) (resp : RespObj)
    (parse : String → Option JVal) : Except String EvalResult :=
  let blanks := q.content.blanks
  match extractUserAnswers resp parse with
  | .notFound => .ok (noAnswersResult blanks (getField resp "questionIndex"))
  | .found userAnswers => .ok (gradeCompletion blanks userAnswers (getField resp "questionIndex"))
  | .nonArray _ =>
    if blanks.isEmpty then
      .ok (gradeCompletion blanks [] (getField resp "questionIndex"))
    else
      .error "TypeError: userAnswers.find is not a function"

/-! ## Multiple-choice scorer (`src/lib/registry/question-types/multiple-choice.ts`) -/

/-- Content payload of a multiple-choice question. -/
structure MCContent where
  options : List String
  correctAnswer : String
deriving DecidableEq

/-- A multiple-choice question (the scorer reads only `content`). -/
structure MCQuestion where
  content : MCContent
deriving DecidableEq

/-- A multiple-choice response; `selectedOption` models
`response.response.selectedOption`. -/
structure MCResponse where
  questionIndex : Int
  selectedOption : String
deriving DecidableEq

/-- `calculateMultipleChoiceScore`. -/
def calculateMultipleChoiceScore (q : MCQuestion) (r : MCResponse) : EvalResult :=
  let isCorrect := q.content.correctAnswer == r.selectedOption
  { questionIndex := .num r.questionIndex
    questionType := "multiple-choice"
    isCorrect := isCorrect
    score := if isCorrect then 1 else 0
    maxScore := 1
    feedback :=
      if isCorrect then "Correct! Well done."
      else "Incorrect. The correct answer is " ++ q.content.correctAnswer ++ "."
    correctAnswer := some q.content.correctAnswer
    partialCredit := none }

/-! ## Legacy migration layer (`src/lib/utils/question-migration`) -/

/-- A question as the migration layer sees it: an untyped object whose fields
may each be any runtime value (`type` is the legacy/tagged discriminator
field, `content` the tagged payload). -/
structure DynQuestion where
  id : JVal
  question : JVal
  options : JVal
  correctAnswer : JVal
  type : JVal
  content : JVal
  difficulty : JVal
  explanation : JVal
  context : JVal

/-- A response as the migration layer sees it. -/
structure DynResponse where
  questionIndex : JVal
  answer : JVal
  questionType : JVal
  timestamp : JVal
  response : JVal

/-- `isLegacyQuestion`: string `id`, `question` and `correctAnswer`, array
`options`, absent-or-string `type`, and no (truthy) `content`. -/
def isLegacyQuestion (q : DynQuestion) : Bool :=
  q.id.isStr && q.question.isStr && q.options.isArr && q.correctAnswer.isStr &&
  (!q.type.truthy || q.type.isStr) && !q.content.truthy

/-- `migrateLegacyQuestion`: rebuild as the tagged multiple-choice shape.
The produced object has no top-level `options`/`correctAnswer` fields. -/
def migrateLegacyQuestion (q : DynQuestion) : DynQuestion :=
  { id := q.id
    question := q.question
    options := .undefined
    correctAnswer := .undefined
    type := .str "multiple-choice"
    content := .obj [("options", q.options), ("correctAnswer", q.correctAnswer)]
    difficulty := q.difficulty
    explanation := if q.explanation.truthy then q.explanation else .str ""
    context := q.context }

/-- `autoMigrateQuestion`. -/
def autoMigrateQuestion (q : DynQuestion) : DynQuestion :=
  if isLegacyQuestion q then migrateLegacyQuestion q else q

/-- `isLegacyResponse`: numeric `questionIndex`, string `answer`, no (truthy)
`questionType`. -/
def isLegacyResponse (r : DynResponse) : Bool :=
  r.questionIndex.isNum && r.answer.isStr && !r.questionType.truthy

/-- `migrateLegacyResponse` with its default `questionType` argument
`'multiple-choice'` (the only branch that exists): `now` is the value of
`new Date()` at the call, passed explicitly. -/
def migrateLegacyResponse (now : JVal) (r : DynResponse) : DynResponse :=
  { questionIndex := r.questionIndex
    answer := .undefined
    questionType := .str "multiple-choice"
    timestamp := now
    response := .obj [("selectedOption", r.answer)] }

/-- `autoMigrateResponse`. -/
def autoMigrateResponse (now : JVal) (r : DynResponse) : DynResponse :=
  if isLegacyResponse r then migrateLegacyResponse now r else r

/-- The flat legacy response record. -/
structure LegacyQuestionResponse where
  questionIndex : JVal
  answer : JVal

mutual
/-- ECMAScript `ToString`, for the template literal in the error path of
`convertToLegacyResponse` (arrays join their elements with `","`,
`null`/`undefined` elements rendering as the empty string). -/
def JVal.display : JVal → String
  | .undefined => "undefined"
  | .null => "null"
  | .bool b => if b then "true" else "false"
  | .num n => toString n
  | .str s => s
  | .arr l => JVal.displayElems l
  | .obj _ => "[object Object]"

def JVal.displayElems : List JVal → String
  | [] => ""
  | v :: rest =>
    let s :=
      match v with
      | .undefined => ""
      | .null => ""
      | w => JVal.display w
    match rest with
    | [] => s
    | _ => s ++ "," ++ JVal.displayElems rest
end

/-- `convertToLegacyResponse`: defined only for the `multiple-choice` tag,
raising `Legacy conversion not implemented for question type: X` otherwise. -/
def convertToLegacyResponse (r : DynResponse) : Except String LegacyQuestionResponse :=
  match r.questionType with
  | .str "multiple-choice" => .ok ⟨r.questionIndex, r.response.get "selectedOption"⟩
  | t => .error ("Legacy conversion not implemented for question type: " ++ t.display)

/-! ## Completion result formatter
(`src/lib/registry/result-formatters/completion-formatter.ts`, current
revision: the one with the single-blank display special case and the
structured-answer methods). -/

/-- Stable insertion of a blank into a position-sorted list: a blank moves
past exactly the blanks with strictly smaller positions, as the stable
`Array.prototype.sort` with comparator `a.position - b.position` arranges. -/
def insertByPos (b : BlankSpec) : List BlankSpec → List BlankSpec
  | [] => [b]
  | c :: cs => if c.position < b.position then c :: insertByPos b cs else b :: c :: cs

/-- `blanks.sort((a, b) => a.position - b.position)`: stable sort ascending
by `position`. -/
def sortBlanksByPosition : List BlankSpec → List BlankSpec
  | [] => []
  | b :: bs => insertByPos b (sortBlanksByPosition bs)

/-- The question as `Array.prototype.sort` leaves it: `content.blanks`
replaced (in place, in the source) by the given list. -/
def withBlanks (q : CompletionQuestion) (l : List BlankSpec) : CompletionQuestion :=
  { q with content := { q.content with blanks := l } }

/-- `answer?.value?.trim() || '(empty)'` for the answer located for a blank. -/
def userDisplayValue (answers : List BlankAnswer) (b : BlankSpec) (index : Nat) :
    String :=
  match findAnswerFor answers b index with
  | some a =>
    match a.value with
    | some v => if jsTrim v == "" then "(empty)" else jsTrim v
    | none => "(empty)"
  | none => "(empty)"

/-- The numbered segments `${index + 1}:"${value}"` of the multi-blank user
display, starting at index `i`. -/
def userSegments (answers : List BlankAnswer) : List BlankSpec → Nat → List String
  | [], _ => []
  | b :: bs, i =>
    (toString (i + 1) ++ ":\"" ++ userDisplayValue answers b i ++ "\"") ::
      userSegments answers bs (i + 1)

/-- The response-normalization chain of the formatter: the same first four
shapes as the scorer (including the legacy non-array JSON fallback), with no
heuristic field scan. -/
def formatterExtract (resp : RespObj) (parse : String → Option JVal) :
    ExtractOutcome :=
  let r := getField resp "response"
  if r.truthy && (r.get "answers").truthy && (r.get "answers").isArr then
    .found ((r.get "answers").elems.map toBlankAnswer)
  else if (getField resp "answers").truthy && (getField resp "answers").isArr then
    .found ((getField resp "answers").elems.map toBlankAnswer)
  else if (getField resp "answer").truthy && (getField resp "answer").isStr then
    match getField resp "answer" with
    | .str s =>
      match parse s with
      | none => .found []
      | some .null => .found []
      | some v =>
        if (v.get "answers").truthy && (v.get "answers").isArr then
          .found ((v.get "answers").elems.map toBlankAnswer)
        else
          match v with
          | .arr l => .found (l.map toBlankAnswer)
          | w => .nonArray w
    | _ => .notFound
  else if r.truthy && r.isArr then
    .found (r.elems.map toBlankAnswer)
  else
    .notFound

/-- `completionFormatter.formatUserAnswer`.  The returned pair is the display
string together with the question as the in-place `blanks.sort` leaves it;
`.error` models the uncaught `TypeError` of calling `.find` on the non-array
legacy fallback value (`answers.length === 0` is false for such a value
unless it is the empty string, whose length is `0`). -/
def formatUserAnswer (q : CompletionQuestion) (resp : RespObj)
    (parse : String → Option JVal) : Except String (String × CompletionQuestion) :=
  match formatterExtract resp parse with
  | .notFound => .ok ("No answer provided", q)
  | .found [] => .ok ("No answer provided", q)
  | .found answers =>
    let sorted := sortBlanksByPosition q.content.blanks
    match sorted with
    | [b] => .ok ("\"" ++ userDisplayValue answers b 0 ++ "\"", withBlanks q sorted)
    | _ => .ok (String.intercalate " • " (userSegments answers sorted 0), withBlanks q sorted)
  | .nonArray (.str "") => .ok ("No answer provided", q)
  | .nonArray _ =>
    match q.content.blanks with
    | [] => .ok ("", withBlanks q [])
    | _ => .error "TypeError: answers.find is not a function"

/-- Main correct answer of a blank together with its alternatives count, as
the single-blank branch of `formatCorrectAnswer` selects them: the head of a
non-empty `acceptedAnswers` with the remainder counted, else a truthy
`answer` with `alternatives.length`, else `???`. -/
def acMain (b : BlankSpec) : String × Nat :=
  match b.acceptedAnswers with
  | some (a :: rest) => (a, rest.length)
  | _ =>
    match b.answer with
    | some a => if a == "" then ("???", 0) else (a, (b.alternatives.getD []).length)
    | none => ("???", 0)

/-- The numbered segments `${index + 1}:"${mainAnswer}"` of the multi-blank
correct-answer display (alternatives are not shown there), starting at `i`. -/
def correctSegments : List BlankSpec → Nat → List String
  | [], _ => []
  | b :: bs, i =>
    (toString (i + 1) ++ ":\"" ++ (acMain b).1 ++ "\"") :: correctSegments bs (i + 1)

/-- `completionFormatter.formatCorrectAnswer`, paired with the question as
the in-place `blanks.sort` leaves it. -/
def formatCorrectAnswer (q : CompletionQuestion) : String × CompletionQuestion :=
  let sorted := sortBlanksByPosition q.content.blanks
  match sorted with
  | [b] =>
    let main := (acMain b).1
    let altCount := (acMain b).2
    (if 0 < altCount then
       "\"" ++ main ++ "\" (+" ++ toString altCount ++ " more)"
     else
       "\"" ++ main ++ "\"",
     withBlanks q sorted)
  | _ => (String.intercalate " • " (correctSegments sorted 0), withBlanks q sorted)

/-! ## Concrete fixtures used by witnesses and counterexamples -/

/-- A `JSON.parse` model for responses that never reach the JSON branch. -/
def jsonParseNone : String → Option JVal := fun _ => none

/-- `JSON.parse` on the one string exercised by the malformed-response input:
the five-character JSON text `"oops"` parses to the bare string `oops`. -/
def jsonParseOops : String → Option JVal := fun s =>
  if s == "\"oops\"" then some (.str "oops") else none

/-- First blank of the two-blank example of the spec (accepted answers
`sunny`/`nice`). -/
def sampleBlank1 : BlankSpec := ⟨some "blank-1", 18, some ["sunny", "nice"], none, none, false⟩

/-- Second blank of the two-blank example of the spec (accepted answer
`park`). -/
def sampleBlank2 : BlankSpec := ⟨some "blank-2", 65, some ["park"], none, none, false⟩

/-- The two-blank example question. -/
def exampleQuestion : CompletionQuestion :=
  ⟨"q-example", none, ⟨"It was a beautiful ___ day, so I went to the ___.", [sampleBlank1, sampleBlank2]⟩⟩

/-- A fully correct submission `sunny`/`park`, each answer labelled with its
blank's id. -/
def exampleResponse : RespObj :=
  [("questionIndex", .num 0), ("questionType", .str "completion"),
   ("response", .obj [("answers", .arr [
     .obj [("blankId", .str "blank-1"), ("value", .str "sunny")],
     .obj [("blankId", .str "blank-2"), ("value", .str "park")]])])]

/-- The spec's example submission `sunny`/`garden` (second blank wrong). -/
def gardenResponse : RespObj :=
  [("questionIndex", .num 0), ("questionType", .str "completion"),
   ("response", .obj [("answers", .arr [
     .obj [("blankId", .str "blank-1"), ("value", .str "sunny")],
     .obj [("blankId", .str "blank-2"), ("value", .str "garden")]])])]

/-- A three-blank question, for the empty-object-response example. -/
def threeBlankQuestion : CompletionQuestion :=
  ⟨"q-three", none, ⟨"___ ___ ___",
    [sampleBlank1, sampleBlank2, ⟨some "blank-3", 70, some ["x"], none, none, false⟩]⟩⟩

/-- A question with no blanks. -/
def zeroBlankQuestion : CompletionQuestion := ⟨"q-zero", none, ⟨"no blanks", []⟩⟩

/-- A well-formed response carrying an empty answers array. -/
def emptyAnswersResponse : RespObj :=
  [("questionIndex", .num 0), ("response", .obj [("answers", .arr [])])]

/-- A single-blank question (case-insensitive accepted answer `Paris`). -/
def oneBlankQuestion : CompletionQuestion :=
  ⟨"q-one", none, ⟨"___", [⟨some "blank-1", 10, some ["Paris"], none, none, false⟩]⟩⟩

/-- A response whose `answer` field is the JSON text `"oops"`. -/
def oopsResponse : RespObj :=
  [("questionIndex", .num 0), ("questionType", .str "completion"),
   ("answer", .str "\"oops\"")]

/-- The example question with its blanks listed against position order. -/
def unsortedQuestion : CompletionQuestion :=
  ⟨"q-unsorted", none, ⟨"t", [sampleBlank2, sampleBlank1]⟩⟩

/-- The multiple-choice example: four options, correct answer `B`. -/
def exampleMCQuestion : MCQuestion := ⟨⟨["optA", "optB", "optC", "optD"], "B"⟩⟩

/-! ## Supporting lemmas -/

lemma countCorrect_le (ua : List BlankAnswer) :
    ∀ (bs : List BlankSpec) (i : Nat), countCorrect ua bs i ≤ bs.length := by
  intro bs
  induction bs with
  | nil => intro i; simp [countCorrect]
  | cons b bs ih =>
    intro i
    simp only [countCorrect, List.length_cons]
    have h := ih (i + 1)
    split <;> omega

lemma score_eq_one_iff (c n : Nat) (hn : 0 < n) :
    (if 0 < n then (c : ℚ) / (n : ℚ) else 0) = 1 ↔ c = n := by
  rw [if_pos hn]
  have hnz : (n : ℚ) ≠ 0 := by exact_mod_cast hn.ne'
  rw [div_eq_one_iff_eq hnz]
  exact_mod_cast Iff.rfl

/-! ## Claim theorems -/

/-- Claim C4: for every multiple-choice question and response, the score is
`1` exactly when the selected option equals `content.correctAnswer` and `0`
otherwise, so the score is binary and `isCorrect` holds iff the score is
`1`; the concrete `correctAnswer = "B"`, submission `"B"` case yields score
`1` and `isCorrect`. -/
theorem multiple_choice_score_binary :
    (∀ (q : MCQuestion) (r : MCResponse),
      ((calculateMultipleChoiceScore q r).score = 0 ∨
        (calculateMultipleChoiceScore q r).score = 1) ∧
      ((calculateMultipleChoiceScore q r).isCorrect = true ↔
        (calculateMultipleChoiceScore q r).score = 1) ∧
      ((calculateMultipleChoiceScore q r).score = 1 ↔
        r.selectedOption = q.content.correctAnswer)) ∧
    (calculateMultipleChoiceScore exampleMCQuestion ⟨0, "B"⟩).score = 1 ∧
    (calculateMultipleChoiceScore exampleMCQuestion ⟨0, "B"⟩).isCorrect = true := by
  refine ⟨fun q r => ?_, by decide, by decide⟩
  by_cases h : q.content.correctAnswer = r.selectedOption
  · simp [calculateMultipleChoiceScore, h]
  · have hb : (q.content.correctAnswer == r.selectedOption) = false := by
      simpa using h
    simp [calculateMultipleChoiceScore, hb]
    exact fun hsel => h hsel.symm

/-- Claim C4 witness: the general part applied at the concrete `B`/`B`
question and response. -/
theorem multiple_choice_score_binary_witness :
    ((calculateMultipleChoiceScore exampleMCQuestion ⟨0, "B"⟩).score = 0 ∨
      (calculateMultipleChoiceScore exampleMCQuestion ⟨0, "B"⟩).score = 1) ∧
    ((calculateMultipleChoiceScore exampleMCQuestion ⟨0, "B"⟩).isCorrect = true ↔
      (calculateMultipleChoiceScore exampleMCQuestion ⟨0, "B"⟩).score = 1) ∧
    ((calculateMultipleChoiceScore exampleMCQuestion ⟨0, "B"⟩).score = 1 ↔
      (⟨0, "B"⟩ : MCResponse).selectedOption = exampleMCQuestion.content.correctAnswer) :=
  multiple_choice_score_binary.1 exampleMCQuestion ⟨0, "B"⟩

/-- Claim C6: `autoMigrateQuestion` and `autoMigrateResponse` are idempotent
(for responses, whatever `new Date()` yields on each call), and
already-tagged input — a question with a truthy `content` field, a response
with a truthy `questionType` field — passes through unchanged. -/
theorem auto_migrate_idempotent :
    (∀ q : DynQuestion, autoMigrateQuestion (autoMigrateQuestion q) = autoMigrateQuestion q) ∧
    (∀ (now1 now2 : JVal) (r : DynResponse),
      autoMigrateResponse now1 (autoMigrateResponse now2 r) = autoMigrateResponse now2 r) ∧
    (∀ q : DynQuestion, q.content.truthy = true → autoMigrateQuestion q = q) ∧
    (∀ (now : JVal) (r : DynResponse),
      r.questionType.truthy = true → autoMigrateResponse now r = r) := by
  have hq : ∀ q : DynQuestion, q.content.truthy = true → autoMigrateQuestion q = q := by
    intro q hc
    unfold autoMigrateQuestion isLegacyQuestion
    simp [hc]
  have hr : ∀ (now : JVal) (r : DynResponse),
      r.questionType.truthy = true → autoMigrateResponse now r = r := by
    intro now r ht
    unfold autoMigrateResponse isLegacyResponse
    simp [ht]
  refine ⟨fun q => ?_, fun now1 now2 r => ?_, hq, hr⟩
  · by_cases h : isLegacyQuestion q = true
    · have h2 : autoMigrateQuestion q = migrateLegacyQuestion q := by
        unfold autoMigrateQuestion; simp [h]
      rw [h2]
      exact hq _ rfl
    · have h2 : autoMigrateQuestion q = q := by
        unfold autoMigrateQuestion
        simp [Bool.not_eq_true] at h
        simp [h]
      rw [h2, h2]
  · by_cases h : isLegacyResponse r = true
    · have h2 : autoMigrateResponse now2 r = migrateLegacyResponse now2 r := by
        unfold autoMigrateResponse; simp [h]
      rw [h2]
      exact hr _ _ rfl
    · have h2 : autoMigrateResponse now2 r = r := by
        unfold autoMigrateResponse
        simp [Bool.not_eq_true] at h
        simp [h]
      rw [h2]
      by_cases h1 : isLegacyResponse r = true
      · exact absurd h1 (by simp [Bool.not_eq_true] at h ⊢; simp [h])
      · unfold autoMigrateResponse
        simp [Bool.not_eq_true] at h1
        simp [h1]

/-- Claim C6 witness: pass-through and idempotence applied to a concrete
tagged question and response. -/
theorem auto_migrate_idempotent_witness :
    autoMigrateQuestion
        ⟨.str "id1", .str "What?", .undefined, .undefined, .str "multiple-choice",
         .obj [("options", .arr []), ("correctAnswer", .str "B")], .str "easy", .str "", .undefined⟩ =
      ⟨.str "id1", .str "What?", .undefined, .undefined, .str "multiple-choice",
       .obj [("options", .arr []), ("correctAnswer", .str "B")], .str "easy", .str "", .undefined⟩ ∧
    autoMigrateResponse (.str "now")
        ⟨.num 3, .undefined, .str "multiple-choice", .str "t0",
         .obj [("selectedOption", .str "B")]⟩ =
      ⟨.num 3, .undefined, .str "multiple-choice", .str "t0",
       .obj [("selectedOption", .str "B")]⟩ :=
  ⟨auto_migrate_idempotent.2.2.1 _ rfl, auto_migrate_idempotent.2.2.2 _ _ rfl⟩

/-- Claim C7: `convertToLegacyResponse` returns the flat
`{questionIndex, answer: selectedOption}` record for every response tagged
`multiple-choice` (never raising there), and for any other tag raises the
explicit `Legacy conversion not implemented for question type: X` error
naming that tag. -/
theorem convert_to_legacy_response_contract :
    (∀ r : DynResponse, r.questionType = .str "multiple-choice" →
      convertToLegacyResponse r = .ok ⟨r.questionIndex, r.response.get "selectedOption"⟩) ∧
    (∀ (r : DynResponse) (t : String), r.questionType = .str t → t ≠ "multiple-choice" →
      convertToLegacyResponse r =
        .error ("Legacy conversion not implemented for question type: " ++ t)) := by
  constructor
  · intro r h
    unfold convertToLegacyResponse
    rw [h]
    rfl
  · intro r t h hne
    unfold convertToLegacyResponse
    rw [h]
    have : (JVal.str t) = JVal.str "multiple-choice" → False := by
      intro hc
      cases hc
      exact hne rfl
    split
    · rename_i heq
      exact absurd heq.symm (by intro hc; cases hc; exact hne rfl)
    · rename_i w heq
      simp [JVal.display]

/-- Claim C7 witness: both branches applied at concrete responses
(`multiple-choice` with selection `B`, and the `completion` tag). -/
theorem convert_to_legacy_response_contract_witness :
    convertToLegacyResponse
        ⟨.num 3, .undefined, .str "multiple-choice", .undefined, .obj [("selectedOption", .str "B")]⟩ =
      .ok ⟨JVal.num 3, (JVal.obj [("selectedOption", .str "B")]).get "selectedOption"⟩ ∧
    convertToLegacyResponse ⟨.num 1, .undefined, .str "completion", .undefined, .obj []⟩ =
      .error ("Legacy conversion not implemented for question type: " ++ "completion") :=
  ⟨convert_to_legacy_response_contract.1 _ rfl,
   convert_to_legacy_response_contract.2 _ "completion" rfl (by decide)⟩

/-- Claim C1, as amended: for every completion question and response on
which the scorer returns an evaluation, `partialCredit.possible` is the
blank count `N`, `0 ≤ earned ≤ possible`, `score = earned / N` (`0` when
`N = 0`), and whenever `N > 0`, `isCorrect` holds iff `score = 1`.  (The
claim's unconditional `isCorrect ↔ score == 1.0` fails at `N = 0`, where the
scorer reports `isCorrect` with score `0`.) -/
theorem completion_score_invariants :
    ∀ (q : CompletionQuestion) (resp : RespObj) (parse : String → Option JVal) (r : EvalResult),
      calculateCompletionScore q resp parse = .ok r →
      ∃ pc, r.partialCredit = some pc ∧
        pc.possible = q.content.blanks.length ∧
        pc.earned ≤ pc.possible ∧
        r.score = (if pc.possible = 0 then (0 : ℚ) else (pc.earned : ℚ) / (pc.possible : ℚ)) ∧
        (0 < pc.possible → ((r.isCorrect = true) ↔ r.score = 1)) := by
  intro q resp parse r h
  unfold calculateCompletionScore at h
  cases hx : extractUserAnswers resp parse <;> rw [hx] at h
  case found ua =>
    simp only [Except.ok.injEq] at h
    subst h
    refine ⟨⟨countCorrect ua q.content.blanks 0, q.content.blanks.length,
      gradeDetails ua q.content.blanks 0⟩, rfl, rfl, countCorrect_le ua q.content.blanks 0, ?_, ?_⟩
    · rcases Nat.eq_zero_or_pos q.content.blanks.length with h0 | hpos
      · simp [gradeCompletion, h0]
      · simp only [gradeCompletion, if_pos hpos, if_neg hpos.ne']
    · intro hpos
      show ((countCorrect ua q.content.blanks 0 == q.content.blanks.length) = true) ↔ _
      rw [beq_iff_eq]
      exact (score_eq_one_iff _ _ hpos).symm
  case nonArray w =>
    dsimp only at h
    by_cases he : q.content.blanks.isEmpty
    · have hb : q.content.blanks = [] := List.isEmpty_iff.mp he
      rw [if_pos he] at h
      simp only [Except.ok.injEq] at h
      subst h
      refine ⟨⟨0, 0, []⟩, by simp [gradeCompletion, hb, countCorrect, gradeDetails], by simp [hb],
        le_refl 0, by simp [gradeCompletion, hb, countCorrect], by intro hpos; simp at hpos⟩
    · rw [if_neg he] at h
      cases h
  case notFound =>
    simp only [Except.ok.injEq] at h
    subst h
    refine ⟨⟨0, q.content.blanks.length, fallbackDetails q.content.blanks 0⟩, rfl, rfl,
      Nat.zero_le _, ?_, ?_⟩
    · rcases Nat.eq_zero_or_pos q.content.blanks.length with h0 | hpos
      · simp [noAnswersResult, h0]
      · simp [noAnswersResult, if_neg hpos.ne']
    · intro hpos
      constructor
      · intro hc
        exact absurd hc (by simp [noAnswersResult])
      · intro hs
        exact absurd hs (by simp [noAnswersResult])

/-- Claim C1 witness: the invariants applied to the three-blank question and
the empty-object response. -/
theorem completion_score_invariants_witness :
    ∃ pc, (noAnswersResult threeBlankQuestion.content.blanks (getField [] "questionIndex")).partialCredit = some pc ∧
      pc.possible = threeBlankQuestion.content.blanks.length ∧
      pc.earned ≤ pc.possible ∧
      (noAnswersResult threeBlankQuestion.content.blanks (getField [] "questionIndex")).score =
        (if pc.possible = 0 then (0 : ℚ) else (pc.earned : ℚ) / (pc.possible : ℚ)) ∧
      (0 < pc.possible →
        (((noAnswersResult threeBlankQuestion.content.blanks (getField [] "questionIndex")).isCorrect = true) ↔
          (noAnswersResult threeBlankQuestion.content.blanks (getField [] "questionIndex")).score = 1)) :=
  completion_score_invariants threeBlankQuestion [] jsonParseNone _ rfl

/-- Claim C1 counterexample: on a completion question with zero blanks and a
well-formed empty answers array, the scorer returns `isCorrect = true` while
the score is not `1` — refuting the claimed unconditional
`isCorrect ⟺ score == 1.0`. -/
theorem completion_zero_blank_isCorrect_cex :
    (calculateCompletionScore zeroBlankQuestion emptyAnswersResponse jsonParseNone).map
        (fun r => (r.isCorrect, decide (r.score = 1))) = .ok (true, false) := by
  rfl

/-- Claim C3: the `{}` response on a three-blank question yields the defined
zero evaluation with the no-answers feedback (second conjunct), but the
scorer does not never-throw: a response whose `answer` field is a JSON text
denoting a bare string takes the legacy fallback `userAnswers = parsedAnswer`
and the grading loop then raises an uncaught `TypeError` (first conjunct). -/
theorem completion_malformed_response_handling :
    calculateCompletionScore oneBlankQuestion oopsResponse jsonParseOops =
      .error "TypeError: userAnswers.find is not a function" ∧
    (calculateCompletionScore threeBlankQuestion [] jsonParseNone).map
        (fun r => (r.score, r.isCorrect, r.feedback,
          r.partialCredit.map (fun (p : PartialCredit) => (p.earned, p.possible)))) =
      .ok (0, false, "No answers provided - unable to evaluate response.", some (0, 3)) := by
  exact ⟨rfl, rfl⟩

/-- The answers list extracted from `gardenResponse`. -/
def gardenAnswers : List BlankAnswer :=
  [⟨some "blank-1", some "sunny"⟩, ⟨some "blank-2", some "garden"⟩]

lemma grade_score_pos (blanks : List BlankSpec) (ua : List BlankAnswer) (qi : JVal)
    (hn : 0 < blanks.length) :
    (gradeCompletion blanks ua qi).score =
      (countCorrect ua blanks 0 : ℚ) / (blanks.length : ℚ) := by
  simp [gradeCompletion, if_pos hn]

lemma grade_feedback_full (blanks : List BlankSpec) (ua : List BlankAnswer) (qi : JVal)
    (hcn : countCorrect ua blanks 0 = blanks.length) :
    (gradeCompletion blanks ua qi).feedback = "Excellent! All blanks filled correctly." := by
  simp [gradeCompletion, hcn]

lemma grade_feedback_not_full (blanks : List BlankSpec) (ua : List BlankAnswer) (qi : JVal)
    (hcn : countCorrect ua blanks 0 ≠ blanks.length) :
    (gradeCompletion blanks ua qi).feedback =
      (if (7 : ℚ) / 10 ≤ (gradeCompletion blanks ua qi).score then
        "Good work! " ++ toString (countCorrect ua blanks 0) ++ " out of " ++
          toString blanks.length ++ " blanks correct."
      else if (2 : ℚ) / 5 ≤ (gradeCompletion blanks ua qi).score then
        "Partial credit. " ++ toString (countCorrect ua blanks 0) ++ " out of " ++
          toString blanks.length ++ " blanks correct. Review the incorrect answers."
      else
        "More practice needed. Only " ++ toString (countCorrect ua blanks 0) ++ " out of " ++
          toString blanks.length ++ " blanks correct.") := by
  simp [gradeCompletion, hcn]

/-- Claim C5: for completion evaluations over `N > 0` blanks, the feedback
message is selected by score band, boundaries `0.7` and `0.4` inclusive on
the lower bound of each band (`score = 1` → all-correct message;
`0.7 ≤ score < 1` → good-work message; `0.4 ≤ score < 0.7` → partial-credit
message; `score < 0.4` → more-practice message); and the spec's two-blank
`sunny`/`garden` example yields score `1/2`, `earned = 1`, `possible = 2`
and the partial-credit feedback containing `1 out of 2`. -/
theorem completion_feedback_bands :
    (∀ (blanks : List BlankSpec) (ua : List BlankAnswer) (qi : JVal),
      0 < blanks.length →
      ((gradeCompletion blanks ua qi).score = 1 →
        (gradeCompletion blanks ua qi).feedback = "Excellent! All blanks filled correctly.") ∧
      ((7 : ℚ) / 10 ≤ (gradeCompletion blanks ua qi).score ∧
          (gradeCompletion blanks ua qi).score < 1 →
        (gradeCompletion blanks ua qi).feedback =
          "Good work! " ++ toString (countCorrect ua blanks 0) ++ " out of " ++
            toString blanks.length ++ " blanks correct.") ∧
      ((2 : ℚ) / 5 ≤ (gradeCompletion blanks ua qi).score ∧
          (gradeCompletion blanks ua qi).score < (7 : ℚ) / 10 →
        (gradeCompletion blanks ua qi).feedback =
          "Partial credit. " ++ toString (countCorrect ua blanks 0) ++ " out of " ++
            toString blanks.length ++ " blanks correct. Review the incorrect answers.") ∧
      ((gradeCompletion blanks ua qi).score < (2 : ℚ) / 5 →
        (gradeCompletion blanks ua qi).feedback =
          "More practice needed. Only " ++ toString (countCorrect ua blanks 0) ++ " out of " ++
            toString blanks.length ++ " blanks correct.")) ∧
    (calculateCompletionScore exampleQuestion gardenResponse jsonParseNone).map
        (fun r => (r.score, r.feedback,
          r.partialCredit.map (fun (p : PartialCredit) => (p.earned, p.possible)))) =
      .ok (1 / 2, "Partial credit. 1 out of 2 blanks correct. Review the incorrect answers.",
        some (1, 2)) := by
  constructor
  · intro blanks ua qi hn
    have hle := countCorrect_le ua blanks 0
    have hscore := grade_score_pos blanks ua qi hn
    have hNnz : ((blanks.length : ℚ)) ≠ 0 := by exact_mod_cast hn.ne'
    by_cases hcn : countCorrect ua blanks 0 = blanks.length
    · have hone : (gradeCompletion blanks ua qi).score = 1 := by
        rw [hscore, hcn]
        exact div_self hNnz
      have hfb := grade_feedback_full blanks ua qi hcn
      refine ⟨fun _ => hfb, fun hband => ?_, fun hband => ?_, fun hband => ?_⟩
      · rw [hone] at hband
        exact absurd hband.2 (by norm_num)
      · rw [hone] at hband
        exact absurd hband.2 (by norm_num)
      · rw [hone] at hband
        exact absurd hband (by norm_num)
    · have hlt : countCorrect ua blanks 0 < blanks.length := lt_of_le_of_ne hle hcn
      have hlt1 : (gradeCompletion blanks ua qi).score < 1 := by
        rw [hscore]
        rw [div_lt_one (by exact_mod_cast hn)]
        exact_mod_cast hlt
      have hfb := grade_feedback_not_full blanks ua qi hcn
      refine ⟨fun hone => absurd hone (ne_of_lt hlt1), fun hband => ?_, fun hband => ?_,
        fun hband => ?_⟩
      · rw [hfb, if_pos hband.1]
      · rw [hfb, if_neg (by exact not_le.mpr hband.2), if_pos hband.1]
      · rw [hfb, if_neg (by exact not_le.mpr (lt_trans hband (by norm_num))),
          if_neg (by exact not_le.mpr hband)]
  · have h1 : calculateCompletionScore exampleQuestion gardenResponse jsonParseNone =
        .ok (gradeCompletion [sampleBlank1, sampleBlank2] gardenAnswers (JVal.num 0)) := rfl
    rw [h1]
    have hsc : (gradeCompletion [sampleBlank1, sampleBlank2] gardenAnswers (JVal.num 0)).score
        = 1 / 2 := rfl
    have hcn : countCorrect gardenAnswers [sampleBlank1, sampleBlank2] 0 ≠
        ([sampleBlank1, sampleBlank2] : List BlankSpec).length := by decide
    have hfb := grade_feedback_not_full [sampleBlank1, sampleBlank2] gardenAnswers
      (JVal.num 0) hcn
    rw [hsc] at hfb
    rw [if_neg (by norm_num), if_pos (by norm_num)] at hfb
    show Except.ok
        ((gradeCompletion [sampleBlank1, sampleBlank2] gardenAnswers (JVal.num 0)).score,
         (gradeCompletion [sampleBlank1, sampleBlank2] gardenAnswers (JVal.num 0)).feedback,
         Option.map (fun (p : PartialCredit) => (p.earned, p.possible))
           (gradeCompletion [sampleBlank1, sampleBlank2] gardenAnswers (JVal.num 0)).partialCredit) =
      Except.ok (1 / 2, "Partial credit. 1 out of 2 blanks correct. Review the incorrect answers.",
        some (1, 2))
    rw [hsc, hfb]
    rfl

/-- Claim C5 witness: the partial-credit band applied to the concrete
two-blank example evaluation. -/
theorem completion_feedback_bands_witness :
    (gradeCompletion [sampleBlank1, sampleBlank2] gardenAnswers (JVal.num 0)).feedback =
      "Partial credit. 1 out of 2 blanks correct. Review the incorrect answers." :=
  (completion_feedback_bands.1 [sampleBlank1, sampleBlank2] gardenAnswers (JVal.num 0)
    (by decide)).2.2.1 (by
      constructor <;>
        · rw [show (gradeCompletion [sampleBlank1, sampleBlank2] gardenAnswers
              (JVal.num 0)).score = 1 / 2 from rfl]
          norm_num)

/-- The claim's comparison normalization: trim leading/trailing whitespace on
both sides, case-fold unless the blank declares case-sensitivity. -/
def specNormalize (caseSensitive : Bool) (s : String) : String :=
  if caseSensitive then jsTrim s else jsToLower (jsTrim s)

/-- The claim's location procedure, stated from the spec's words: the
submitted answer whose `blankId` matches the blank's identifier
(`blank.id`, or `blank-<index>` when no id is declared); when no identifier
matches, the `index`-th submitted answer. -/
def specLocatedAnswer (answers : List BlankAnswer) (b : BlankSpec) (index : Nat) :
    Option BlankAnswer :=
  match answers.find? (fun a => a.blankId == some (effectiveId b index)) with
  | some a => some a
  | none => answers[index]?

/-- The claim's per-blank grading predicate: the located submitted value,
normalized, equals some member of the blank's acceptance set, normalized. -/
def specBlankGradedCorrect (answers : List BlankAnswer) (b : BlankSpec) (index : Nat) :
    Bool :=
  (acceptanceSet b).any fun a =>
    specNormalize b.caseSensitive a ==
      specNormalize b.caseSensitive
        (((specLocatedAnswer answers b index).bind (fun x => x.value)).getD "")

/-- The answers list extracted from `exampleResponse` (both blanks answered
correctly, each labelled with its blank's id). -/
def parkAnswers : List BlankAnswer :=
  [⟨some "blank-1", some "sunny"⟩, ⟨some "blank-2", some "park"⟩]

/-- Claim C2: the grading procedure the claim describes marks the second
blank correct on the fully correct labelled submission (first conjunct), but
the scorer's `find` predicate also accepts the positional name
``blank-${index}``, so for the blank at index `1` it captures the first
submitted answer (labelled `blank-1`) before the exact id match is reached:
the code grades the second blank against `sunny`, marks it incorrect, and
returns score `1/2` (remaining conjuncts). -/
theorem completion_blank_matching_divergence :
    specBlankGradedCorrect parkAnswers sampleBlank2 1 = true ∧
    blankCorrect parkAnswers sampleBlank2 1 = false ∧
    (calculateCompletionScore exampleQuestion exampleResponse jsonParseNone).map
        (fun r => (r.isCorrect, r.score,
          r.partialCredit.map (fun (p : PartialCredit) => p.details))) =
      .ok (false, 1 / 2, some ["blank-blank-1-correct", "blank-blank-2-incorrect"]) := by
  exact ⟨rfl, rfl, rfl⟩

/-- Claim C8: the completion formatter is not side-effect-free over the
question: `formatUserAnswer` calls `Array.prototype.sort` on
`question.content.blanks`, which sorts in place, so a question whose blanks
are listed against position order (`[65, 18]`) comes back with its blanks
reordered (`[18, 65]`). -/
theorem format_user_answer_mutates_blanks :
    (formatUserAnswer unsortedQuestion gardenResponse jsonParseNone).map
        (fun p => p.2.content.blanks.map (fun b => b.position)) = .ok [18, 65] ∧
    unsortedQuestion.content.blanks.map (fun b => b.position) = [65, 18] := by
  exact ⟨rfl, rfl⟩

lemma length_insertByPos (b : BlankSpec) (l : List BlankSpec) :
    (insertByPos b l).length = l.length + 1 := by
  induction l with
  | nil => rfl
  | cons c cs ih =>
    unfold insertByPos
    split
    · simp [ih]
    · simp

lemma length_sortBlanksByPosition (l : List BlankSpec) :
    (sortBlanksByPosition l).length = l.length := by
  induction l with
  | nil => rfl
  | cons b bs ih =>
    unfold sortBlanksByPosition
    rw [length_insertByPos, ih, List.length_cons]

/-- Claim C9: the current completion formatter renders a single-blank
question as the bare quoted located value with no numbering, renders a
multi-blank question as bullet-separated numbered `i:"value"` segments over
the position-sorted blanks, and compresses a blank's alternate accepted
answers into a `(+N more)` suffix instead of listing them. -/
theorem completion_formatter_display_shapes :
    (∀ (q : CompletionQuestion) (resp : RespObj) (parse : String → Option JVal)
        (answers : List BlankAnswer) (b : BlankSpec),
      formatterExtract resp parse = .found answers → answers ≠ [] →
      q.content.blanks = [b] →
      formatUserAnswer q resp parse =
        .ok ("\"" ++ userDisplayValue answers b 0 ++ "\"", q)) ∧
    (∀ (q : CompletionQuestion) (resp : RespObj) (parse : String → Option JVal)
        (answers : List BlankAnswer),
      formatterExtract resp parse = .found answers → answers ≠ [] →
      2 ≤ q.content.blanks.length →
      formatUserAnswer q resp parse =
        .ok (String.intercalate " • "
              (userSegments answers (sortBlanksByPosition q.content.blanks) 0),
             withBlanks q (sortBlanksByPosition q.content.blanks))) ∧
    (∀ (q : CompletionQuestion) (b : BlankSpec) (a : String) (rest : List String),
      q.content.blanks = [b] → b.acceptedAnswers = some (a :: rest) → rest ≠ [] →
      (formatCorrectAnswer q).1 =
        "\"" ++ a ++ "\" (+" ++ toString rest.length ++ " more)") := by
  refine ⟨?_, ?_, ?_⟩
  · intro q resp parse answers b hex hne hq
    unfold formatUserAnswer
    rw [hex]
    cases answers with
    | nil => exact absurd rfl hne
    | cons a0 as =>
      rw [hq]
      show Except.ok
          ("\"" ++ userDisplayValue (a0 :: as) b 0 ++ "\"",
            withBlanks q (sortBlanksByPosition [b])) = _
      have hw : withBlanks q (sortBlanksByPosition [b]) = q := by
        show withBlanks q [b] = q
        cases q with
        | mk id expl content =>
          cases content with
          | mk template blanks =>
            simp only [CompletionQuestion.mk.injEq] at hq ⊢
            simp_all [withBlanks]
      rw [hw]
  · intro q resp parse answers hex hne hlen
    unfold formatUserAnswer
    rw [hex]
    cases answers with
    | nil => exact absurd rfl hne
    | cons a0 as =>
      have hslen : (sortBlanksByPosition q.content.blanks).length = q.content.blanks.length :=
        length_sortBlanksByPosition _
      cases hs : sortBlanksByPosition q.content.blanks with
      | nil => rfl
      | cons b0 bs =>
        cases bs with
        | nil =>
          rw [hs] at hslen
          simp only [List.length_cons, List.length_nil] at hslen
          omega
        | cons b1 bs2 => rfl
  · intro q b a rest hq hacc hne
    unfold formatCorrectAnswer
    rw [hq]
    show ((if 0 < (acMain b).2 then
        "\"" ++ (acMain b).1 ++ "\" (+" ++ toString (acMain b).2 ++ " more)"
      else "\"" ++ (acMain b).1 ++ "\""), withBlanks q (sortBlanksByPosition [b])).1 = _
    have hm : acMain b = (a, rest.length) := by
      unfold acMain
      rw [hacc]
    rw [hm]
    have hpos : 0 < rest.length := List.length_pos.mpr hne
    simp [if_pos hpos]

/-- Claim C9 witness: the single-blank shape applied to a concrete
one-blank question and a submission of `" hi "`, yielding the bare quoted
trimmed value. -/
theorem completion_formatter_display_shapes_witness :
    formatUserAnswer oneBlankQuestion
        [("response", .obj [("answers", .arr [.obj [("blankId", .str "blank-1"),
          ("value", .str " hi ")]])])] jsonParseNone =
      .ok ("\"hi\"", oneBlankQuestion) :=
  completion_formatter_display_shapes.1 oneBlankQuestion
    [("response", .obj [("answers", .arr [.obj [("blankId", .str "blank-1"),
      ("value", .str " hi ")]])])] jsonParseNone
    [⟨some "blank-1", some " hi "⟩] ⟨some "blank-1", 10, some ["Paris"], none, none, false⟩
    rfl (by decide) rfl

/-- Claim C10: migrating a flat legacy multiple-choice response
`{questionIndex, answer}` to the tagged shape and converting back yields the
original record exactly, for every index, answer string and migration
timestamp. -/
theorem legacy_response_round_trip :
    ∀ (qi : Int) (ans : String) (now : JVal),
      convertToLegacyResponse
          (migrateLegacyResponse now ⟨.num qi, .str ans, .undefined, .undefined, .undefined⟩) =
        .ok ⟨.num qi, .str ans⟩ := by
  intro qi ans now
  rfl

end FFLMS
